import Mathlib

/-!
Verification of the pong server repository (pon-server.js and its
difficulty-settings sibling).  The repository contains two generations of
the server code:

* the keyboard variant (second half of `pon-server.js`): radius-aware
  wall and paddle collision, per-tick paddle integration with clamping,
  a per-room AI agent with a perception/prediction/actuation loop
  (`aiPerceiveAndAct`), and `detachAIAgentFromRoom`;
* the legacy variant (first half of `pon-server.js` and the
  difficulty-settings file): center-only wall check, point-equality
  paddle collision (`ball.x === 20` / `=== 780`), mouse-driven paddles,
  `updateAIPaddle`/`refreshAILogic` with `DIFFICULTY_SETTINGS`,
  a readiness-guarded game loop, and a per-room `aiTimer`.

All numeric state is embedded as rationals (`ℚ`): the JavaScript numbers
involved are produced by additions, subtractions, multiplications and
divisions of small literals, which the rationals model exactly.
Every call to `Math.random()` is passed in as an explicit parameter
(a draw in `[0, 1)`), so each function below is a deterministic function
of state and draws, exactly mirroring the JavaScript control flow.
-/

/-- Ball record: `{ x, y, vx, vy, radius }` as created by `createGameState`. -/
structure Ball where
  x : ℚ
  y : ℚ
  vx : ℚ
  vy : ℚ
  radius : ℚ
deriving DecidableEq, Repr

/-- Paddle record.  The keyboard variant's paddles carry `vy` and `speed`;
the legacy variant's right paddle carries `targetY`.  JavaScript objects are
open records, so we embed the union of the fields; each function reads or
writes only the fields its source variant uses. -/
structure Paddle where
  x : ℚ
  y : ℚ
  width : ℚ
  height : ℚ
  score : ℕ
  vy : ℚ
  speed : ℚ
  targetY : ℚ
deriving DecidableEq, Repr

/-- One room's `gameState`: ball plus the two paddles. -/
structure GameState where
  ball : Ball
  player1 : Paddle
  player2 : Paddle
deriving DecidableEq, Repr

/-- `createGameState()`: ball at (400,200) moving (2,2), radius 10;
left paddle at x=10, right paddle at x=780, both y=150, 10×100,
score 0, `vy: 0, speed: 5` (keyboard variant) and `targetY: 150`
(legacy right paddle). -/
def createGameState : GameState :=
  { ball := { x := 400, y := 200, vx := 2, vy := 2, radius := 10 }
    player1 := { x := 10, y := 150, width := 10, height := 100, score := 0
                 vy := 0, speed := 5, targetY := 150 }
    player2 := { x := 780, y := 150, width := 10, height := 100, score := 0
                 vy := 0, speed := 5, targetY := 150 } }

/-! ## Keyboard-variant physics (`updateGame`, pon-server.js second half) -/

/-- `ball.x += vx; ball.y += vy` — the ball integration at the top of
`updateGame`. -/
def moveBall (b : Ball) : Ball :=
  { b with x := b.x + b.vx, y := b.y + b.vy }

/-- The radius-inclusive wall-contact condition
`ball.y - radius <= 0 || ball.y + radius >= 400` shared by the keyboard
variant's `updateGame` and (as we prove below) by the bounce rule inside
`aiPerceiveAndAct`'s forward simulation. -/
def wallContact (y r : ℚ) : Prop :=
  y - r ≤ 0 ∨ y + r ≥ 400

instance (y r : ℚ) : Decidable (wallContact y r) := by
  unfold wallContact; infer_instance

/-- Wall bounce of the keyboard variant's `updateGame`:
`if (y - r <= 0 || y + r >= 400) vy = -vy`. -/
def wallReflect (b : Ball) : Ball :=
  if b.y - b.radius ≤ 0 ∨ b.y + b.radius ≥ 400 then { b with vy := -b.vy } else b

/-- Paddle integration and clamping of the keyboard variant:
`y = Math.max(0, Math.min(300, y + vy))`. -/
def clampPaddle (p : Paddle) : Paddle :=
  { p with y := max 0 (min 300 (p.y + p.vy)) }

/-- Left-paddle contact test of the keyboard variant (range check):
`x - r <= p1.x + p1.width && x - r >= p1.x && y >= p1.y && y <= p1.y + p1.height`. -/
def leftPaddleContact (b : Ball) (p : Paddle) : Prop :=
  b.x - b.radius ≤ p.x + p.width ∧ b.x - b.radius ≥ p.x ∧
    b.y ≥ p.y ∧ b.y ≤ p.y + p.height

instance (b : Ball) (p : Paddle) : Decidable (leftPaddleContact b p) := by
  unfold leftPaddleContact; infer_instance

/-- Right-paddle contact test of the keyboard variant:
`x + r >= p2.x && x + r <= p2.x + p2.width && y >= p2.y && y <= p2.y + p2.height`. -/
def rightPaddleContact (b : Ball) (p : Paddle) : Prop :=
  b.x + b.radius ≥ p.x ∧ b.x + b.radius ≤ p.x + p.width ∧
    b.y ≥ p.y ∧ b.y ≤ p.y + p.height

instance (b : Ball) (p : Paddle) : Decidable (rightPaddleContact b p) := by
  unfold rightPaddleContact; infer_instance

/-- Left-paddle collision response: `vx = Math.abs(vx)` plus the vertical
tweak `vy += (Math.random() - 0.5) * 0.5`, with the draw `j` passed in. -/
def leftPaddleCollide (b : Ball) (p : Paddle) (j : ℚ) : Ball :=
  if leftPaddleContact b p then
    { b with vx := |b.vx|, vy := b.vy + (j - 1/2) * (1/2) }
  else b

/-- Right-paddle collision response: `vx = -Math.abs(vx)` plus the vertical
tweak, with the draw `j` passed in. -/
def rightPaddleCollide (b : Ball) (p : Paddle) (j : ℚ) : Ball :=
  if rightPaddleContact b p then
    { b with vx := -|b.vx|, vy := b.vy + (j - 1/2) * (1/2) }
  else b

/-- Keyboard-variant `resetBall`: recenter to (400,200) and give each
velocity component a draw-dependent sign at base speed 2
(`Math.random() > 0.5 ? 2 : -2`). -/
def resetBall (b : Ball) (rx ry : ℚ) : Ball :=
  { b with x := 400, y := 200
           vx := if rx > 1/2 then 2 else -2
           vy := if ry > 1/2 then 2 else -2 }

/-- Scoring block of the keyboard variant's `updateGame`:
`x < 0` increments player2's score, `x > 800` increments player1's score,
either calls `resetBall`. -/
def scoring (gs : GameState) (rx ry : ℚ) : GameState :=
  if gs.ball.x < 0 then
    { gs with player2 := { gs.player2 with score := gs.player2.score + 1 }
              ball := resetBall gs.ball rx ry }
  else if gs.ball.x > 800 then
    { gs with player1 := { gs.player1 with score := gs.player1.score + 1 }
              ball := resetBall gs.ball rx ry }
  else gs

/-- The keyboard variant's `updateGame(gameState)` (pon-server.js, second
half): move ball, radius-inclusive wall bounce, integrate-and-clamp both
paddles, range-check paddle collisions, scoring.  `j1 j2` are the two
`Math.random()` draws of the collision tweaks, `rx ry` those of
`resetBall`. -/
def updateGame (gs : GameState) (j1 j2 rx ry : ℚ) : GameState :=
  let b1 := moveBall gs.ball
  let b2 := wallReflect b1
  let p1 := clampPaddle gs.player1
  let p2 := clampPaddle gs.player2
  let b3 := leftPaddleCollide b2 p1 j1
  let b4 := rightPaddleCollide b3 p2 j2
  scoring { ball := b4, player1 := p1, player2 := p2 } rx ry

/-! ## Legacy physics (`updateGame` of pon-server.js first half and of
the difficulty-settings file — the two are line-for-line identical) -/

/-- Legacy wall bounce: `if (ball.y <= 0 || ball.y >= 400) vy = -vy` —
a center-only check, with no radius term. -/
def wallReflectP0 (b : Ball) : Ball :=
  if b.y ≤ 0 ∨ b.y ≥ 400 then { b with vy := -b.vy } else b

/-- Legacy left-paddle collision: point-equality check
`ball.x === 20 && y >= p1.y && y <= p1.y + 100`, response `vx = -vx`
(a bare negation, not `Math.abs`). -/
def leftCollideP0 (b : Ball) (p : Paddle) : Ball :=
  if b.x = 20 ∧ b.y ≥ p.y ∧ b.y ≤ p.y + 100 then { b with vx := -b.vx } else b

/-- Legacy right-paddle collision: `ball.x === 780`, response `vx = -vx`. -/
def rightCollideP0 (b : Ball) (p : Paddle) : Ball :=
  if b.x = 780 ∧ b.y ≥ p.y ∧ b.y ≤ p.y + 100 then { b with vx := -b.vx } else b

/-- Legacy `resetBall`: recenter to (400,200); `vx` is set to base speed
with the sign *opposite* to its current sign (`vx > 0 ? -2 : 2` — no
random draw involved), `vy` gets a draw-dependent sign
(`Math.random() > 0.5 ? 2 : -2`). -/
def resetBallP0 (b : Ball) (ry : ℚ) : Ball :=
  { b with x := 400, y := 200
           vx := if b.vx > 0 then -2 else 2
           vy := if ry > 1/2 then 2 else -2 }

/-- Legacy scoring block, identical control flow to the keyboard variant
but calling the legacy `resetBall`. -/
def scoringP0 (gs : GameState) (ry : ℚ) : GameState :=
  if gs.ball.x < 0 then
    { gs with player2 := { gs.player2 with score := gs.player2.score + 1 }
              ball := resetBallP0 gs.ball ry }
  else if gs.ball.x > 800 then
    { gs with player1 := { gs.player1 with score := gs.player1.score + 1 }
              ball := resetBallP0 gs.ball ry }
  else gs

/-- The legacy `updateGame(gameState)`: move ball, center-only wall
bounce, point-equality paddle collisions, scoring.  Paddle positions are
never touched here (mouse input and `updateAIPaddle` move them outside
the step).  `ry` is the `Math.random()` draw of the legacy `resetBall`. -/
def updateGameP0 (gs : GameState) (ry : ℚ) : GameState :=
  let b1 := moveBall gs.ball
  let b2 := wallReflectP0 b1
  let b3 := leftCollideP0 b2 gs.player1
  let b4 := rightCollideP0 b3 gs.player2
  scoringP0 { gs with ball := b4 } ry

/-! ## Legacy AI (`DIFFICULTY_SETTINGS`, `refreshAILogic`,
`updateAIPaddle` of the difficulty-settings file) -/

/-- The three difficulty levels accepted by `setDifficulty`. -/
inductive Level where
  | easy
  | medium
  | hard
deriving DecidableEq, Repr

/-- One entry of `DIFFICULTY_SETTINGS`: paddle speed (units per tick),
prediction error range (units) and AI refresh period (milliseconds). -/
structure DifficultyProfile where
  paddleSpeed : ℚ
  errorRange : ℚ
  refreshRate : ℕ
deriving DecidableEq, Repr

/-- `DIFFICULTY_SETTINGS`: easy `{3, 40, 1500}`, medium `{5, 20, 1000}`,
hard `{8, 5, 500}`. -/
def DIFFICULTY_SETTINGS : Level → DifficultyProfile
  | .easy => { paddleSpeed := 3, errorRange := 40, refreshRate := 1500 }
  | .medium => { paddleSpeed := 5, errorRange := 20, refreshRate := 1000 }
  | .hard => { paddleSpeed := 8, errorRange := 5, refreshRate := 500 }

/-- The target computed by the legacy `refreshAILogic`: when the ball moves
toward the AI (`vx > 0`), a closed-form linear intercept clamped to
`[0, 400 - height]` plus a draw-dependent error
(`Math.random() * errorRange - errorRange / 2`); otherwise the constant
board-center default `200 - height / 2`. -/
def refreshAITargetP0 (ball : Ball) (paddle : Paddle) (rnd : ℚ) (lvl : Level) : ℚ :=
  let errorRange := (DIFFICULTY_SETTINGS lvl).errorRange
  if ball.vx > 0 then
    let timeToReach := (paddle.x - ball.x) / ball.vx
    let predictedY := ball.y + ball.vy * timeToReach
    let predictedY := max 0 (min (400 - paddle.height) predictedY)
    predictedY + (rnd * errorRange - errorRange / 2)
  else
    200 - paddle.height / 2

/-- The legacy `updateAIPaddle(paddle, difficulty)`: move `y` toward
`targetY` by at most `paddleSpeed`, with *no* clamping to the board. -/
def updateAIPaddle (p : Paddle) (lvl : Level) : Paddle :=
  let paddleSpeed := (DIFFICULTY_SETTINGS lvl).paddleSpeed
  if p.y < p.targetY then
    { p with y := p.y + min paddleSpeed (p.targetY - p.y) }
  else if p.y > p.targetY then
    { p with y := p.y - min paddleSpeed (p.y - p.targetY) }
  else p

/-! ## Legacy room machinery (difficulty-settings file): rooms, the
readiness-guarded game loop, `joinGame`, `setDifficulty`, `paddleMove` -/

/-- An interval timer as registered by `setInterval`: an identity plus the
period it was started with. -/
structure Timer where
  id : ℕ
  period : ℕ
deriving DecidableEq, Repr

/-- A legacy room object: `{ players, gameState, aiEnabled, ready,
aiDifficulty }` plus the `aiTimer` field installed by `startAIInterval`.
`players` abbreviates `players.length`. -/
structure P0Room where
  players : ℕ
  ready : Bool
  aiEnabled : Bool
  aiDifficulty : Level
  aiTimer : Option Timer
  gameState : GameState
deriving DecidableEq, Repr

/-- A freshly created PvP room as built by `findAvailableRoom`. -/
def freshRoomP0 : P0Room :=
  { players := 0, ready := false, aiEnabled := false
    aiDifficulty := .medium, aiTimer := none, gameState := createGameState }

/-- The messages the server emits (payloads beyond the broadcast game
state are irrelevant to the claims and omitted). -/
inductive Msg where
  | gameUpdate (gs : GameState)
  | playerAssignment
  | gameReady
  | waitingForPlayer
  | playerDisconnected
deriving DecidableEq, Repr

/-- One firing of the legacy 60 Hz game loop, restricted to a single room
(rooms are independent).  `if (!room.ready) continue` skips the room
entirely; otherwise an occupied room is advanced (AI paddle first when
`aiEnabled`) and its state broadcast, and an empty room is deleted
(result `none`).  `ry` is the draw consumed by a potential `resetBall`. -/
def tickRoomP0 (room : P0Room) (ry : ℚ) : Option P0Room × List Msg :=
  if room.ready = false then (some room, [])
  else if room.players = 0 then (none, [])
  else
    let gs1 :=
      if room.aiEnabled then
        { room.gameState with
            player2 := updateAIPaddle room.gameState.player2 room.aiDifficulty }
      else room.gameState
    let gs2 := updateGameP0 gs1 ry
    (some { room with gameState := gs2 }, [Msg.gameUpdate gs2])

/-- `startAIInterval(roomId)`: a no-op unless the room exists and
`aiEnabled`; otherwise it clears any previous `aiTimer` and installs a
fresh one whose period is the current difficulty's `refreshRate`.
`tid` is the fresh interval identity handed out by `setInterval`. -/
def startAIInterval (room : P0Room) (tid : ℕ) : P0Room :=
  if room.aiEnabled then
    { room with aiTimer := some { id := tid
                                  period := (DIFFICULTY_SETTINGS room.aiDifficulty).refreshRate } }
  else room

/-- The `joinGame` handler's per-room effect for a joining socket.
With `aiMode = true` the (always fresh) room is flagged `aiEnabled`,
marked ready, gets its AI timer and `gameReady` is broadcast.  In PvP the
room was produced by `findAvailableRoom` with `aiEnabled` forced false;
the second join marks the room ready, the first leaves it waiting.  In
every case the joining socket is first sent the current `gameState` as a
`gameUpdate` plus its `playerAssignment`. -/
def joinGameP0 (room : P0Room) (aiMode : Bool) (tid : ℕ) : P0Room × List Msg :=
  let room1 := { room with aiEnabled := aiMode }
  let room2 := { room1 with players := room1.players + 1 }
  let base := [Msg.gameUpdate room2.gameState, Msg.playerAssignment]
  if room2.aiEnabled then
    (startAIInterval { room2 with ready := true } tid, base ++ [Msg.gameReady])
  else if room2.players = 2 then
    ({ room2 with ready := true }, base ++ [Msg.gameReady])
  else
    ({ room2 with ready := false }, base ++ [Msg.waitingForPlayer])

/-- The wire-level difficulty decoder: `["easy","medium","hard"].includes`
as a partial decode. -/
def decodeLevel (s : String) : Option Level :=
  if s = "easy" then some .easy
  else if s = "medium" then some .medium
  else if s = "hard" then some .hard
  else none

/-- The `setDifficulty` handler: an unknown level string is a no-op; a
known one is stored into `aiDifficulty` and `startAIInterval` is invoked
(which itself restarts the timer only when `aiEnabled`). -/
def setDifficultyP0 (room : P0Room) (level : String) (tid : ℕ) : P0Room :=
  match decodeLevel level with
  | none => room
  | some lvl => startAIInterval { room with aiDifficulty := lvl } tid

/-- The legacy `paddleMove` handler (identical in the first half of
pon-server.js): player 1 moves their own paddle to the clamp of the
reported `y`; player 2 does so only when `aiEnabled` is off; a
player-2 move in an AI room falls through both branches. -/
def paddleMoveP0 (gs : GameState) (aiEnabled isPlayer1 : Bool) (y : ℚ) : GameState :=
  if isPlayer1 then
    { gs with player1 := { gs.player1 with y := max 0 (min 300 y) } }
  else if aiEnabled = false then
    { gs with player2 := { gs.player2 with y := max 0 (min 300 y) } }
  else gs

/-! ## Keyboard-variant AI agent (`attachAIAgentToRoom`,
`aiPerceiveAndAct`, `handleKeyPress`/`handleKeyRelease`,
`detachAIAgentFromRoom` of pon-server.js second half) -/

/-- A directional key, `'up'` or `'down'`. -/
inductive Key where
  | up
  | down
deriving DecidableEq, Repr

/-- A discrete actuation event issued by the AI (the same handlers the
sockets call). -/
inductive KeyEvent where
  | press (k : Key)
  | release (k : Key)
deriving DecidableEq, Repr

/-- `handleKeyPress`: pressing up sets `vy = -speed`, pressing down sets
`vy = speed`. -/
def handleKeyPress (p : Paddle) (k : Key) : Paddle :=
  match k with
  | .up => { p with vy := -p.speed }
  | .down => { p with vy := p.speed }

/-- `handleKeyRelease`: stop only if the released key matches the current
movement direction. -/
def handleKeyRelease (p : Paddle) (k : Key) : Paddle :=
  match k with
  | .up => if p.vy < 0 then { p with vy := 0 } else p
  | .down => if p.vy > 0 then { p with vy := 0 } else p

/-- The decision block of `aiPerceiveAndAct` (the three-way comparison of
`delta = targetY - paddleCenterY` against the dead-zone `threshold = 8`):
returns the new `ai.pressing` together with the key events issued, in
issue order. -/
def aiDecide (pressing : Option Key) (delta : ℚ) : Option Key × List KeyEvent :=
  if delta < -8 then
    if pressing = some Key.up then (pressing, [])
    else
      (some Key.up,
        (if pressing = some Key.down then [KeyEvent.release Key.down] else [])
          ++ [KeyEvent.press Key.up])
  else if delta > 8 then
    if pressing = some Key.down then (pressing, [])
    else
      (some Key.down,
        (if pressing = some Key.up then [KeyEvent.release Key.up] else [])
          ++ [KeyEvent.press Key.down])
  else
    match pressing with
    | some k => (none, [KeyEvent.release k])
    | none => (none, [])

/-- The trailing "mistime" block of `aiPerceiveAndAct`: with the draw
below 0.05, release whatever is held. -/
def aiMistake (pressing : Option Key) (r : ℚ) : Option Key × List KeyEvent :=
  if r < 1/20 then
    match pressing with
    | some k => (none, [KeyEvent.release k])
    | none => (none, [])
  else (pressing, [])

/-- One actuation phase of `aiPerceiveAndAct`: the decision block followed
by the independent mistake block, with the issued events concatenated in
order. -/
def aiActuate (pressing : Option Key) (delta r : ℚ) : Option Key × List KeyEvent :=
  let d := aiDecide pressing delta
  let m := aiMistake d.1 r
  (m.1, d.2 ++ m.2)

/-- The state of the prediction loop inside `aiPerceiveAndAct`:
`predictedX`, `predictedY` and the working velocities. -/
structure PredState where
  px : ℚ
  py : ℚ
  vx : ℚ
  vy : ℚ
deriving DecidableEq, Repr

/-- The bounce block of the prediction loop: if the ball's top edge is at
or past the top wall, snap to the wall and flip `vy`; else if the bottom
edge is at or past the bottom wall, snap and flip. -/
def aiBounce (py vy r : ℚ) : ℚ × ℚ :=
  if py - r ≤ 0 then (r, -vy)
  else if py + r ≥ 400 then (400 - r, -vy)
  else (py, vy)

/-- The forward-simulation loop of `aiPerceiveAndAct`
(`while (steps < maxSteps)` with `maxSteps = 5000` as the fuel):
integrate one tick, bounce on the walls, and exit once
`(s.ball.vx > 0 && predictedX >= aiPaddleX - width) ||
 (s.ball.vx < 0 && predictedX <= aiPaddleX + width)` —
note the break condition reads the *snapshot* velocity `vx0`, never the
working (possibly fallback-assigned) one. -/
def aiPredict (fuel : ℕ) (st : PredState) (vx0 paddleX w r : ℚ) : PredState :=
  match fuel with
  | 0 => st
  | fuel + 1 =>
    let px' := st.px + st.vx
    let py0 := st.py + st.vy
    let byv := aiBounce py0 st.vy r
    let st' : PredState := { px := px', py := byv.1, vx := st.vx, vy := byv.2 }
    if (vx0 > 0 ∧ px' ≥ paddleX - w) ∨ (vx0 < 0 ∧ px' ≤ paddleX + w) then st'
    else aiPredict fuel st' vx0 paddleX w r

/-- `detachAIAgentFromRoom` (keyboard variant): when an agent is attached,
`clearInterval` its handle — removing it from the set of live interval
timers — and null the room's `ai` field, both synchronously. -/
def detachAIAgentFromRoom (ai : Option Timer) (liveTimers : List ℕ) :
    Option Timer × List ℕ :=
  match ai with
  | none => (none, liveTimers)
  | some t => (none, liveTimers.erase t.id)

/-- One firing of a legacy room's `aiTimer` callback
(`refreshAILogic(room)`).  The callback holds the room object itself, so
it runs against that object whether or not the registry still lists the
room; it runs only while its interval is still live.  It stores the
freshly computed target into `player2.targetY`. -/
def aiFireP0 (room : P0Room) (liveTimers : List ℕ) (rnd : ℚ) : P0Room :=
  match room.aiTimer with
  | some t =>
    if t.id ∈ liveTimers then
      { room with gameState :=
          { room.gameState with player2 :=
              { room.gameState.player2 with targetY :=
                  (refreshAITargetP0 room.gameState.ball room.gameState.player2
                    rnd room.aiDifficulty) } } }
    else room
  | none => room

/-- The empty-room cleanup of the legacy game loop:
`delete gameRooms[roomId]` drops the room from the registry but touches
no interval timer — the returned pair is (still registered?, live
timers). -/
def cleanupRoomP0 (players : ℕ) (registered : Bool) (liveTimers : List ℕ) :
    Bool × List ℕ :=
  if players = 0 then (false, liveTimers) else (registered, liveTimers)

/-! ## Shared lemmas -/

/-- `scoring` never moves a paddle: player 1's `y` passes through. -/
lemma scoring_player1_y (gs : GameState) (rx ry : ℚ) :
    (scoring gs rx ry).player1.y = gs.player1.y := by
  unfold scoring; split_ifs <;> rfl

/-- `scoring` never moves a paddle: player 2's `y` passes through. -/
lemma scoring_player2_y (gs : GameState) (rx ry : ℚ) :
    (scoring gs rx ry).player2.y = gs.player2.y := by
  unfold scoring; split_ifs <;> rfl

/-- The clamp expression of the keyboard variant lands in `[0, 300]`. -/
lemma clamp_mem (t : ℚ) : 0 ≤ max 0 (min 300 t) ∧ max 0 (min 300 t) ≤ 300 :=
  ⟨le_max_left 0 _, max_le (by norm_num) (min_le_left 300 t)⟩

/-! ## Claim theorems -/

/-- Concrete state for C1: ball one tick away from having its top edge
overlap the top wall while its center stays strictly inside the board. -/
def gsC1 : GameState :=
  { createGameState with ball := { x := 100, y := 3, vx := 2, vy := 2, radius := 10 } }

/-- **C1** (counterexample).  In the legacy `updateGame` (first half of
pon-server.js and the difficulty-settings file), after the step the
ball sits at `y = 5` with radius 10, so the claimed contact condition
`y - radius ≤ 0` holds, yet `vy` is still `2` — the legacy wall check
`y <= 0 || y >= 400` ignores the radius, so the claimed "flips iff
radius-inclusive contact" is false for that step function. -/
theorem C1_center_check_counterexample :
    (updateGameP0 gsC1 0).ball.y = 5 ∧
    (updateGameP0 gsC1 0).ball.y - (updateGameP0 gsC1 0).ball.radius ≤ 0 ∧
    (updateGameP0 gsC1 0).ball.vy = 2 ∧ ¬ (updateGameP0 gsC1 0).ball.vy = -2 := by
  norm_num [updateGameP0, gsC1, createGameState, moveBall, wallReflectP0,
    leftCollideP0, rightCollideP0, scoringP0, resetBallP0]

/-- **C1** (amended).  In the keyboard variant's `updateGame`, the wall
stage reflects the vertical velocity exactly on radius-inclusive wall
contact of the post-integration position: the ball's `vy` after the wall
stage is `-vy` precisely when `wallContact (y + vy) radius` holds, and is
left unchanged otherwise. -/
theorem C1_radius_wall_reflection (b : Ball) :
    (wallReflect (moveBall b)).vy =
      if wallContact (b.y + b.vy) b.radius then -b.vy else b.vy := by
  simp only [moveBall, wallReflect, wallContact]
  split_ifs <;> rfl

/-- **C2** (amended).  After the keyboard variant's `updateGame`, both
paddles' `y` lie in `[0, 300]`, whatever the starting state and draws:
both player-input and AI actuation enter only through `vy`, and the step
clamps `y + vy` into range before anything else reads it. -/
theorem C2_keyboard_clamp (gs : GameState) (j1 j2 rx ry : ℚ) :
    (0 ≤ (updateGame gs j1 j2 rx ry).player1.y ∧
      (updateGame gs j1 j2 rx ry).player1.y ≤ 300) ∧
    (0 ≤ (updateGame gs j1 j2 rx ry).player2.y ∧
      (updateGame gs j1 j2 rx ry).player2.y ≤ 300) := by
  unfold updateGame
  rw [scoring_player1_y, scoring_player2_y]
  exact ⟨clamp_mem _, clamp_mem _⟩

/-- Concrete room for C2's counterexample: an AI room whose paddle sits at
the clamp boundary while `refreshAILogic`'s stored target (clamped
prediction plus error) lies beyond it. -/
def roomC2 : P0Room :=
  { players := 1, ready := true, aiEnabled := true, aiDifficulty := .medium
    aiTimer := none
    gameState :=
      { createGameState with
          ball := { x := 100, y := 100, vx := 2, vy := 2, radius := 10 }
          player2 := { createGameState.player2 with y := 300, targetY := 310 } } }

/-- **C2** (counterexample).  One firing of the legacy game loop on an
AI-backed room moves the AI paddle by `min(paddleSpeed, targetY - y)`
with no clamp (`updateAIPaddle`), and the legacy `updateGame` never
touches paddle positions, so the simulated step ends with
`player2.y = 305 > 300` — the claimed invariant is violated. -/
theorem C2_ai_overrun_counterexample :
    ((tickRoomP0 roomC2 0).1.map fun r => r.gameState.player2.y) = some 305 ∧
    ¬ ((tickRoomP0 roomC2 0).1.map fun r => r.gameState.player2.y) = some 300 ∧
    ¬ (305 : ℚ) ≤ 300 := by
  norm_num [tickRoomP0, roomC2, createGameState, updateAIPaddle,
    DIFFICULTY_SETTINGS, updateGameP0, moveBall, wallReflectP0,
    leftCollideP0, rightCollideP0, scoringP0, resetBallP0]

/-- Concrete state for C3: ball one tick short of the legacy left-paddle
point check, arriving from the *left* (it already passed through the
paddle's x-span going right). -/
def gsC3 : GameState :=
  { createGameState with ball := { x := 18, y := 198, vx := 2, vy := 2, radius := 10 } }

/-- Concrete state for C3: ball one tick short of radius-inclusive
left-paddle contact in the keyboard variant, arriving from the right. -/
def gsC3' : GameState :=
  { createGameState with ball := { x := 26, y := 200, vx := -2, vy := 2, radius := 10 } }

/-- **C3** (code bug, evaluated).  The legacy `updateGame` reaches its
left-paddle hit (`x === 20`, y inside the paddle) and merely negates
`vx`, leaving the ball moving *toward* the left goal (`vx = -2`), not
`+|vx|` as the claim (and the spec's mandated canonical collision)
requires; the keyboard variant's `updateGame` at an analogous contact
forces `vx = |vx| = 2`, away from the left paddle. -/
theorem C3_point_collision_bug :
    (updateGameP0 gsC3 0).ball.x = 20 ∧
    (updateGameP0 gsC3 0).ball.vx = -2 ∧
    ¬ (updateGameP0 gsC3 0).ball.vx = |gsC3.ball.vx| ∧
    (updateGame gsC3' (1/2) (1/2) 0 0).ball.vx = |gsC3'.ball.vx| ∧
    |gsC3'.ball.vx| = 2 := by
  norm_num [updateGameP0, updateGame, gsC3, gsC3', createGameState, moveBall,
    wallReflectP0, leftCollideP0, rightCollideP0, scoringP0, resetBallP0,
    wallReflect, clampPaddle, leftPaddleCollide, rightPaddleCollide,
    leftPaddleContact, rightPaddleContact, scoring, resetBall, abs]

/-- The ball's `x` is settled by the integration stage of the keyboard
variant's `updateGame`: neither the wall bounce nor the paddle responses
touch it. -/
lemma stages_x (gs : GameState) (j1 j2 : ℚ) :
    (rightPaddleCollide
        (leftPaddleCollide (wallReflect (moveBall gs.ball)) (clampPaddle gs.player1) j1)
        (clampPaddle gs.player2) j2).x = gs.ball.x + gs.ball.vx := by
  unfold moveBall wallReflect leftPaddleCollide rightPaddleCollide
  split_ifs <;> rfl

/-- **C4**.  In the keyboard variant's `updateGame`, when the step takes
the ball past the left edge (`x + vx < 0`), exactly player 2's score
rises by exactly one, player 1's is untouched, and the ball is reset to
(400, 200) with `vx` and `vy` each given a draw-dependent sign at base
speed 2; symmetrically past the right edge (`x + vx > 800`). -/
theorem C4_scoring_reset (gs : GameState) (j1 j2 rx ry : ℚ) :
    (gs.ball.x + gs.ball.vx < 0 →
      (updateGame gs j1 j2 rx ry).player2.score = gs.player2.score + 1 ∧
      (updateGame gs j1 j2 rx ry).player1.score = gs.player1.score ∧
      (updateGame gs j1 j2 rx ry).ball.x = 400 ∧
      (updateGame gs j1 j2 rx ry).ball.y = 200 ∧
      (updateGame gs j1 j2 rx ry).ball.vx = (if rx > 1/2 then 2 else -2) ∧
      (updateGame gs j1 j2 rx ry).ball.vy = (if ry > 1/2 then 2 else -2)) ∧
    (gs.ball.x + gs.ball.vx > 800 →
      (updateGame gs j1 j2 rx ry).player1.score = gs.player1.score + 1 ∧
      (updateGame gs j1 j2 rx ry).player2.score = gs.player2.score ∧
      (updateGame gs j1 j2 rx ry).ball.x = 400 ∧
      (updateGame gs j1 j2 rx ry).ball.y = 200 ∧
      (updateGame gs j1 j2 rx ry).ball.vx = (if rx > 1/2 then 2 else -2) ∧
      (updateGame gs j1 j2 rx ry).ball.vy = (if ry > 1/2 then 2 else -2)) := by
  have hx := stages_x gs j1 j2
  constructor <;> intro h <;>
    simp only [updateGame, scoring, resetBall, hx] <;>
    split_ifs <;>
    first
      | (exfalso; linarith)
      | simp [clampPaddle]

/-- Concrete state for C4's witness: ball one tick from the left edge. -/
def gsC4w : GameState :=
  { createGameState with ball := { x := 1, y := 100, vx := -2, vy := 2, radius := 10 } }

/-- **C4** (witness).  `C4_scoring_reset` applied to a concrete left-edge
exit with draws `rx = 3/4`, `ry = 1/4`. -/
theorem C4_scoring_reset_witness :
    (updateGame gsC4w (1/2) (1/2) (3/4) (1/4)).player2.score = gsC4w.player2.score + 1 ∧
    (updateGame gsC4w (1/2) (1/2) (3/4) (1/4)).player1.score = gsC4w.player1.score ∧
    (updateGame gsC4w (1/2) (1/2) (3/4) (1/4)).ball.x = 400 ∧
    (updateGame gsC4w (1/2) (1/2) (3/4) (1/4)).ball.y = 200 ∧
    (updateGame gsC4w (1/2) (1/2) (3/4) (1/4)).ball.vx = 2 ∧
    (updateGame gsC4w (1/2) (1/2) (3/4) (1/4)).ball.vy = -2 := by
  obtain ⟨h1, h2, h3, h4, h5, h6⟩ :=
    (C4_scoring_reset gsC4w (1/2) (1/2) (3/4) (1/4)).1
      (by norm_num [gsC4w, createGameState])
  exact ⟨h1, h2, h3, h4, by rw [h5]; norm_num, by rw [h6]; norm_num⟩

/-- Concrete states for C4's counterexample: a left-edge exit with the
ball moving left, and a right-edge exit with the ball moving right. -/
def gsC4 : GameState :=
  { createGameState with ball := { x := 1, y := 100, vx := -2, vy := 2, radius := 10 } }

def gsC4r : GameState :=
  { createGameState with ball := { x := 799, y := 100, vx := 2, vy := 2, radius := 10 } }

/-- **C4** (counterexample).  The legacy `resetBall` consults its random
draw only for `vy`; `vx` is deterministically the reversal of its
previous sign (`vx > 0 ? -2 : 2`).  Under both draw branches (`3/4` and
`1/4` — the code compares the draw only against `0.5`) the left-edge
exit always restarts with `vx = 2` and the right-edge exit always with
`vx = -2`, so `vx` is not "assigned a random sign" as claimed. -/
theorem C4_reset_direction_counterexample :
    (updateGameP0 gsC4 (3/4)).ball.vx = 2 ∧
    (updateGameP0 gsC4 (1/4)).ball.vx = 2 ∧
    (updateGameP0 gsC4r (3/4)).ball.vx = -2 ∧
    (updateGameP0 gsC4r (1/4)).ball.vx = -2 := by
  norm_num [updateGameP0, gsC4, gsC4r, createGameState, moveBall,
    wallReflectP0, leftCollideP0, rightCollideP0, scoringP0, resetBallP0]

/-- **C5** (amended).  The legacy game loop skips any room whose
readiness flag is unset before doing anything at all: a firing on a
non-ready room leaves it untouched, simulates nothing and emits no
message. -/
theorem C5_waiting_not_simulated (room : P0Room) (ry : ℚ)
    (h : room.ready = false) : tickRoomP0 room ry = (some room, []) := by
  simp [tickRoomP0, h]

/-- **C5** (witness).  `C5_waiting_not_simulated` at a freshly created
waiting PvP room. -/
theorem C5_waiting_not_simulated_witness :
    tickRoomP0 freshRoomP0 0 = (some freshRoomP0, []) :=
  C5_waiting_not_simulated freshRoomP0 0 rfl

/-- **C5** (counterexample).  The `joinGame` handler sends the joining
socket a `gameUpdate` snapshot *before* readiness is decided: after the
first PvP join the room is still Waiting (`ready = false`, one occupied
slot), yet a `gameUpdate` was emitted to its connection — so
"no gameUpdate is ever emitted for a Waiting match" is false as
stated. -/
theorem C5_join_emits_gameUpdate :
    (joinGameP0 freshRoomP0 false 0).1.ready = false ∧
    (joinGameP0 freshRoomP0 false 0).1.players = 1 ∧
    (joinGameP0 freshRoomP0 false 0).2 =
      [Msg.gameUpdate createGameState, Msg.playerAssignment, Msg.waitingForPlayer] := by
  exact ⟨rfl, rfl, rfl⟩

/-- One unfolding of the prediction loop when the arrival test already
holds after the integration step: the loop exits at once, whatever fuel
remains. -/
lemma aiPredict_exit (st : PredState) (vx0 paddleX w r : ℚ) (fuel : ℕ)
    (h : (vx0 > 0 ∧ st.px + st.vx ≥ paddleX - w) ∨
      (vx0 < 0 ∧ st.px + st.vx ≤ paddleX + w)) :
    aiPredict (fuel + 1) st vx0 paddleX w r =
      { px := st.px + st.vx, py := (aiBounce (st.py + st.vy) st.vy r).1
        vx := st.vx, vy := (aiBounce (st.py + st.vy) st.vy r).2 } := by
  simp only [aiPredict]
  rw [if_pos h]

/-- **C6** (amended).  (i) The keyboard variant's physics wall bounce and
(ii) the bounce inside `aiPerceiveAndAct`'s forward simulation flip the
vertical velocity under exactly the same radius-inclusive contact
condition `wallContact` (the AI bounce additionally snaps the predicted
position onto the wall).  (iii) When the snapshot ball is moving away
from the AI paddle (`vx < 0`) and sits left of the paddle's far edge,
the prediction loop exits on its very first iteration — whatever fuel
remains — returning the one-step extrapolation, not a bounce-back
intercept at the paddle's x-span.  (iv) The legacy `refreshAILogic`
defaults its target to the board-center paddle position whenever the
ball is not moving toward the AI. -/
theorem C6_prediction_behavior :
    (∀ b : Ball, (wallContact b.y b.radius → (wallReflect b).vy = -b.vy) ∧
      (¬ wallContact b.y b.radius → (wallReflect b).vy = b.vy)) ∧
    (∀ py vy r : ℚ, (wallContact py r → (aiBounce py vy r).2 = -vy) ∧
      (¬ wallContact py r → aiBounce py vy r = (py, vy))) ∧
    (∀ (st : PredState) (vx0 paddleX w r : ℚ) (fuel : ℕ),
      st.vx < 0 → vx0 = st.vx → st.px ≤ paddleX + w →
      aiPredict (fuel + 1) st vx0 paddleX w r =
        { px := st.px + st.vx, py := (aiBounce (st.py + st.vy) st.vy r).1
          vx := st.vx, vy := (aiBounce (st.py + st.vy) st.vy r).2 }) ∧
    (∀ (ball : Ball) (paddle : Paddle) (rnd : ℚ) (lvl : Level),
      ¬ ball.vx > 0 →
      refreshAITargetP0 ball paddle rnd lvl = 200 - paddle.height / 2) := by
  refine ⟨?_, ?_, ?_, ?_⟩
  · refine fun b => ⟨fun h => ?_, fun h => ?_⟩ <;> unfold wallContact at h <;>
      unfold wallReflect <;> split_ifs <;> first | rfl | tauto
  · refine fun py vy r => ⟨fun h => ?_, fun h => ?_⟩ <;> unfold wallContact at h <;>
      unfold aiBounce <;> split_ifs <;> first | rfl | tauto
  · intro st vx0 paddleX w r fuel h1 h2 h3
    exact aiPredict_exit st vx0 paddleX w r fuel
      (Or.inr ⟨by rw [h2]; exact h1, by linarith⟩)
  · intro ball paddle rnd lvl h
    simp [refreshAITargetP0, h]

/-- **C6** (witness).  `C6_prediction_behavior` applied at concrete
inputs: a ball whose top edge overlaps the top wall (both bounce rules
flip), a concrete away-moving prediction (immediate exit after one
integration step), and a concrete away-moving legacy refresh (center
default). -/
theorem C6_prediction_behavior_witness :
    (wallReflect { x := 0, y := 5, vx := 0, vy := 3, radius := 10 }).vy = -3 ∧
    (aiBounce 5 3 10).2 = -3 ∧
    aiPredict 3 { px := 100, py := 50, vx := -1, vy := 5 } (-1) 780 10 10 =
      { px := 99, py := 55, vx := -1, vy := 5 } ∧
    refreshAITargetP0 { x := 400, y := 200, vx := -2, vy := 2, radius := 10 }
      createGameState.player2 0 Level.medium = 150 := by
  obtain ⟨h1, h2, h3, h4⟩ := C6_prediction_behavior
  refine ⟨?_, ?_, ?_, ?_⟩
  · exact (h1 _).1 (by norm_num [wallContact])
  · exact (h2 5 3 10).1 (by norm_num [wallContact])
  · rw [show (3 : ℕ) = 2 + 1 from rfl,
      h3 { px := 100, py := 50, vx := -1, vy := 5 } (-1) 780 10 10 2
        (by norm_num) rfl (by norm_num)]
    norm_num [aiBounce]
  · rw [h4 _ createGameState.player2 0 Level.medium (by norm_num)]
    norm_num [createGameState]

/-- **C6** (counterexample).  From the snapshot ball (400, 200) moving
away from the AI paddle (`vx = -2`), the prediction loop of
`aiPerceiveAndAct` stops after a single integration step at
`predictedX = 398` — nowhere near the AI paddle's x-span (the loop's own
arrival threshold is `x ≥ 780 - 10`) — so no bounce-back intercept is
computed; and on the same snapshot the legacy `refreshAILogic` sets the
target to the center default 150 (for any error draw, here 3/4),
contradicting "predicts the bounce-back intercept rather than freezing
or defaulting to center". -/
theorem C6_away_counterexample :
    aiPredict (4999 + 1) { px := 400, py := 200, vx := -2, vy := 2 } (-2) 780 10 10 =
      { px := 398, py := 202, vx := -2, vy := 2 } ∧
    ¬ (398 : ℚ) ≥ 780 - 10 ∧
    refreshAITargetP0 { x := 400, y := 200, vx := -2, vy := 2, radius := 10 }
      createGameState.player2 (3/4) Level.medium = 150 := by
  refine ⟨?_, by norm_num, ?_⟩
  · rw [aiPredict_exit _ _ _ _ _ _ (Or.inr ⟨by norm_num, by norm_num⟩)]
    norm_num [aiBounce]
  · norm_num [refreshAITargetP0, createGameState, DIFFICULTY_SETTINGS]

/-- Concrete room for C7: an AI-backed legacy room that has just been
emptied, with its refresh interval (id 0) still live and a stored
target distinct from the center default. -/
def roomC7 : P0Room :=
  { players := 0, ready := true, aiEnabled := true, aiDifficulty := .medium
    aiTimer := some { id := 0, period := 1000 }
    gameState :=
      { createGameState with
          ball := { x := 400, y := 200, vx := -2, vy := 2, radius := 10 }
          player2 := { createGameState.player2 with targetY := 200 } } }

/-- **C7** (code bug, evaluated).  The legacy game loop's empty-room
cleanup deletes the room from the registry without clearing its
`aiTimer` (the timer id 0 is still live afterwards), and the next firing
of that dangling interval still mutates the destroyed room object's
state (`targetY` moves from 200 to the center default 150).  By
contrast, the keyboard variant's `detachAIAgentFromRoom` removes the
interval from the live set and nulls the agent synchronously. -/
theorem C7_dangling_timer_bug :
    cleanupRoomP0 roomC7.players true [0] = (false, [0]) ∧
    (aiFireP0 roomC7 [0] 0).gameState.player2.targetY = 150 ∧
    roomC7.gameState.player2.targetY = 200 ∧
    ¬ (150 : ℚ) = 200 ∧
    detachAIAgentFromRoom (some { id := 3, period := 1000 }) [3] = (none, []) := by
  refine ⟨rfl, ?_, rfl, by norm_num, rfl⟩
  norm_num [aiFireP0, roomC7, refreshAITargetP0, createGameState,
    DIFFICULTY_SETTINGS]

/-- **C8**.  One firing of `aiPerceiveAndAct`'s actuation phase, for
every prior pressing state, every `delta` and every mistake draw `r`:
inside the dead-zone (`|delta| ≤ 8`) any held key is released and the
state ends Idle; for `delta < -8` the AI presses up — releasing a held
down first, in that order — and continues silently if up was already
held; symmetrically for `delta > 8`; the mistake draw can only append an
early release; and the resulting state is always Idle, PressingUp or
PressingDown. -/
theorem C8_deadzone_hysteresis (pressing : Option Key) (delta r : ℚ) :
    (-8 ≤ delta → delta ≤ 8 →
      (aiActuate pressing delta r).1 = none ∧
      (aiActuate pressing delta r).2 =
        (match pressing with
         | some k => [KeyEvent.release k]
         | none => [])) ∧
    (delta < -8 → pressing ≠ some Key.up →
      (aiActuate pressing delta r).1 = (if r < 1/20 then none else some Key.up) ∧
      (aiActuate pressing delta r).2 =
        (if pressing = some Key.down then [KeyEvent.release Key.down] else [])
          ++ [KeyEvent.press Key.up]
          ++ (if r < 1/20 then [KeyEvent.release Key.up] else [])) ∧
    (delta < -8 → pressing = some Key.up →
      (aiActuate pressing delta r).1 = (if r < 1/20 then none else some Key.up) ∧
      (aiActuate pressing delta r).2 =
        (if r < 1/20 then [KeyEvent.release Key.up] else [])) ∧
    (delta > 8 → pressing ≠ some Key.down →
      (aiActuate pressing delta r).1 = (if r < 1/20 then none else some Key.down) ∧
      (aiActuate pressing delta r).2 =
        (if pressing = some Key.up then [KeyEvent.release Key.up] else [])
          ++ [KeyEvent.press Key.down]
          ++ (if r < 1/20 then [KeyEvent.release Key.down] else [])) ∧
    (delta > 8 → pressing = some Key.down →
      (aiActuate pressing delta r).1 = (if r < 1/20 then none else some Key.down) ∧
      (aiActuate pressing delta r).2 =
        (if r < 1/20 then [KeyEvent.release Key.down] else [])) ∧
    ((aiActuate pressing delta r).1 = none ∨
      (aiActuate pressing delta r).1 = some Key.up ∨
      (aiActuate pressing delta r).1 = some Key.down) := by
  refine ⟨?_, ?_, ?_, ?_, ?_, ?_⟩
  · intro h1 h2
    have hd1 : ¬ delta < -8 := by linarith
    have hd2 : ¬ delta > 8 := by linarith
    rcases pressing with _ | k
    · simp [aiActuate, aiDecide, aiMistake, hd1, hd2]
    · cases k <;> simp [aiActuate, aiDecide, aiMistake, hd1, hd2]
  · intro h1 h2
    rcases pressing with _ | k
    · simp [aiActuate, aiDecide, aiMistake, h1] <;> constructor <;>
        split_ifs <;> rfl
    · cases k
      · exact absurd rfl h2
      · simp [aiActuate, aiDecide, aiMistake, h1] <;> constructor <;>
          split_ifs <;> rfl
  · intro h1 h2
    subst h2
    simp [aiActuate, aiDecide, aiMistake, h1] <;> constructor <;>
      split_ifs <;> rfl
  · intro h1 h2
    have hd1 : ¬ delta < -8 := by linarith
    rcases pressing with _ | k
    · simp [aiActuate, aiDecide, aiMistake, h1, hd1] <;> constructor <;>
        split_ifs <;> rfl
    · cases k
      · simp [aiActuate, aiDecide, aiMistake, h1, hd1] <;> constructor <;>
          split_ifs <;> rfl
      · exact absurd rfl h2
  · intro h1 h2
    subst h2
    have hd1 : ¬ delta < -8 := by linarith
    simp [aiActuate, aiDecide, aiMistake, h1, hd1] <;> constructor <;>
      split_ifs <;> rfl
  · rcases hF : (aiActuate pressing delta r).1 with _ | k
    · exact Or.inl rfl
    · cases k
      · exact Or.inr (Or.inl rfl)
      · exact Or.inr (Or.inr rfl)

/-- **C8** (witness).  `C8_deadzone_hysteresis` at concrete firings: a
direction switch from PressingDown with `delta = -20` (release-down then
press-up, no mistake), and a dead-zone firing from PressingUp with
`delta = 3` (release, Idle). -/
theorem C8_deadzone_hysteresis_witness :
    (aiActuate (some Key.down) (-20) (1/2)).1 = some Key.up ∧
    (aiActuate (some Key.down) (-20) (1/2)).2 =
      [KeyEvent.release Key.down, KeyEvent.press Key.up] ∧
    (aiActuate (some Key.up) 3 (1/2)).1 = none ∧
    (aiActuate (some Key.up) 3 (1/2)).2 = [KeyEvent.release Key.up] := by
  have h2 := (C8_deadzone_hysteresis (some Key.down) (-20) (1/2)).2.1
    (by norm_num) (by simp)
  have h1 := (C8_deadzone_hysteresis (some Key.up) 3 (1/2)).1
    (by norm_num) (by norm_num)
  refine ⟨?_, ?_, h1.1, ?_⟩
  · rw [h2.1]; norm_num
  · rw [h2.2]; norm_num
  · rw [h1.2]

/-- **C9** (amended).  The `setDifficulty` handler: an unknown level
string is a complete no-op; a valid level always overwrites the stored
`aiDifficulty` — even on a non-AI room, where `startAIInterval` then
returns early and the timer is untouched; on an AI-backed room the timer
is replaced by a fresh interval at the *new* difficulty's refresh
period. -/
theorem C9_setDifficulty (room : P0Room) (s : String) (tid : ℕ) :
    (decodeLevel s = none → setDifficultyP0 room s tid = room) ∧
    (∀ lvl, decodeLevel s = some lvl → room.aiEnabled = false →
      setDifficultyP0 room s tid = { room with aiDifficulty := lvl }) ∧
    (∀ lvl, decodeLevel s = some lvl → room.aiEnabled = true →
      setDifficultyP0 room s tid =
        { room with
            aiDifficulty := lvl
            aiTimer := some { id := tid
                              period := (DIFFICULTY_SETTINGS lvl).refreshRate } }) := by
  refine ⟨fun h => ?_, fun lvl h ha => ?_, fun lvl h ha => ?_⟩
  · simp [setDifficultyP0, h]
  · simp [setDifficultyP0, h, startAIInterval, ha]
  · simp [setDifficultyP0, h, startAIInterval, ha]

/-- Concrete AI-backed room for C9's witness. -/
def roomC9w : P0Room := { freshRoomP0 with aiEnabled := true }

/-- **C9** (witness).  `C9_setDifficulty` at concrete inputs: a valid
level on an AI room restarts the timer at the new 500 ms period, and an
unknown level is a no-op. -/
theorem C9_setDifficulty_witness :
    setDifficultyP0 roomC9w "hard" 7 =
      { roomC9w with aiDifficulty := Level.hard
                     aiTimer := some { id := 7, period := 500 } } ∧
    setDifficultyP0 freshRoomP0 "nightmare" 7 = freshRoomP0 := by
  constructor
  · exact (C9_setDifficulty roomC9w "hard" 7).2.2 Level.hard rfl rfl
  · exact (C9_setDifficulty freshRoomP0 "nightmare" 7).1 rfl

/-- **C9** (counterexample).  On a non-AI room (`aiEnabled = false`) a
valid `setDifficulty` still mutates the match state: the stored
difficulty changes from medium to hard, contradicting "applied to a
non-AI match it is silently ignored, leaving all match state (including
the stored difficulty) unchanged". -/
theorem C9_nonai_mutation_counterexample :
    freshRoomP0.aiEnabled = false ∧
    freshRoomP0.aiDifficulty = Level.medium ∧
    (setDifficultyP0 freshRoomP0 "hard" 7).aiDifficulty = Level.hard ∧
    ¬ (setDifficultyP0 freshRoomP0 "hard" 7).aiDifficulty = freshRoomP0.aiDifficulty := by
  refine ⟨rfl, rfl, rfl, ?_⟩
  simp [setDifficultyP0, decodeLevel, startAIInterval, freshRoomP0]

/-- **C10**.  The `paddleMove` handler of the legacy servers (identical
in both): the sender's own paddle's `y` — and nothing else — is set to
the clamp of the reported `y` into `[0, 300]`; ball, scores and the
opponent's paddle are untouched; and in an AI-backed room a move
addressed to the AI-controlled right paddle leaves the whole state
unchanged. -/
theorem C10_paddleMove_frame (gs : GameState) (aiEnabled isPlayer1 : Bool) (y : ℚ) :
    (isPlayer1 = true →
      paddleMoveP0 gs aiEnabled isPlayer1 y =
        { gs with player1 := { gs.player1 with y := max 0 (min 300 y) } } ∧
      0 ≤ max (0:ℚ) (min 300 y) ∧ max (0:ℚ) (min 300 y) ≤ 300) ∧
    (isPlayer1 = false → aiEnabled = false →
      paddleMoveP0 gs aiEnabled isPlayer1 y =
        { gs with player2 := { gs.player2 with y := max 0 (min 300 y) } }) ∧
    (isPlayer1 = false → aiEnabled = true →
      paddleMoveP0 gs aiEnabled isPlayer1 y = gs) := by
  refine ⟨fun h => ⟨?_, (clamp_mem y).1, (clamp_mem y).2⟩,
    fun h ha => ?_, fun h ha => ?_⟩
  · simp [paddleMoveP0, h]
  · simp [paddleMoveP0, h, ha]
  · simp [paddleMoveP0, h, ha]

/-- **C10** (witness).  `C10_paddleMove_frame` at concrete inputs: a
player-1 move with an out-of-range `y = 500` clamps to 300 and changes
nothing else; a player-2 move in an AI room changes nothing at all. -/
theorem C10_paddleMove_frame_witness :
    paddleMoveP0 createGameState false true 500 =
      { createGameState with
          player1 := { createGameState.player1 with y := max 0 (min 300 500) } } ∧
    paddleMoveP0 createGameState true false 500 = createGameState := by
  exact ⟨((C10_paddleMove_frame createGameState false true 500).1 rfl).1,
    (C10_paddleMove_frame createGameState true false 500).2.2 rfl rfl⟩
